import Mathlib

/- Shallow embedding of src/reddit-thread-to-markdown.user.js.

   Modelling conventions, all taken from the JavaScript source:
   - JavaScript primitive values that flow through the scraper are modelled by
     `JSVal` (string, number, null, undefined); `getAttribute` results are
     `Option String` where `none` is the DOM null.
   - Presence of a DOM element is `Option`; a thrown exception (for example the
     RangeError of `String.prototype.repeat` on a negative count) makes a
     function return `none`, and it propagates through the callers.
   - JavaScript numbers are modelled as `Int`: every number the script computes
     is an integer (`parseInt` results and the literal 0).
   - Strings are Lean `String`; character-level operations work on `String.data`. -/

inductive JSVal where
  | vUndef : JSVal
  | vNull : JSVal
  | vStr : String → JSVal
  | vNum : Int → JSVal
deriving DecidableEq

open JSVal

/-- JavaScript truthiness for the values of `JSVal`: `null` and `undefined` are
falsy, a string is truthy iff nonempty, a number is truthy iff nonzero. -/
def truthy : JSVal → Bool
  | vUndef => false
  | vNull => false
  | vStr s => s ≠ ""
  | vNum n => n ≠ 0

/-- JavaScript string coercion as performed by template literals. -/
def jsToStr : JSVal → String
  | vUndef => "undefined"
  | vNull => "null"
  | vStr s => s
  | vNum n => toString n

/-- The JavaScript `||` operator restricted to the values it is applied to in
`extractPostData`: returns the left operand when truthy, else the right one. -/
def jsOr (a b : JSVal) : JSVal := if truthy a then a else b

/-- Embeds a `getAttribute` result into `JSVal` (`none` becomes `null`). -/
def attrVal : Option String → JSVal
  | none => vNull
  | some s => vStr s

/-- JavaScript `String.prototype.trim`, modelled on the character list
(whitespace on both ends removed). -/
def trimChars (cs : List Char) : List Char :=
  ((cs.dropWhile Char.isWhitespace).reverse.dropWhile Char.isWhitespace).reverse

/-- `s.trim()` from the source (used on `innerText` of body nodes). -/
def jsTrim (s : String) : String := String.mk (trimChars s.data)

/- ===== Namer: FileUtils.generateFilename (source lines 133-139) =====
   const threadTitle = document.title
     .replace(/ : r\/.*`/, "")          -- first match, `.` excludes line terminators
     .replace(/[^a-z0-9]/gi, "_")
     .toLowerCase();
   return threadTitle + ".md";  -/

/-- JavaScript line terminators, which `.` in a regular expression does not
match: LF, CR, LINE SEPARATOR, PARAGRAPH SEPARATOR. -/
def isLineTerm (c : Char) : Bool :=
  c = '\n' || c = '\r' || c = '\u2028' || c = '\u2029'

/-- The characters of the literal part " : r/" of the regex / : r\/.*/. -/
def markerChars : List Char := [' ', ':', ' ', 'r', '/']

/-- `title.replace(/ : r\/.*`/, "")` from the source: at the leftmost
occurrence of " : r/", remove the marker and the following run of
non-line-terminator characters (greedy `.*`), keep everything after it. -/
def replaceMarkerJS : List Char → List Char
  | [] => []
  | c :: cs =>
    if markerChars.isPrefixOf (c :: cs) then
      ((c :: cs).drop 5).dropWhile (fun x => !isLineTerm x)
    else
      c :: replaceMarkerJS cs

/-- The strip step in the words of the specification: strip a trailing
" : r/<subreddit>" suffix if present, that is, drop everything from the
leftmost occurrence of " : r/" to the end of the string. -/
def replaceMarkerSpec : List Char → List Char
  | [] => []
  | c :: cs =>
    if markerChars.isPrefixOf (c :: cs) then
      []
    else
      c :: replaceMarkerSpec cs

/-- The character class [a-z0-9] of /[^a-z0-9]/gi with the case-insensitive
flag: ASCII letters of either case and ASCII digits. -/
def isAsciiAlnum (c : Char) : Bool :=
  ('a' ≤ c && c ≤ 'z') || ('A' ≤ c && c ≤ 'Z') || ('0' ≤ c && c ≤ '9')

/-- One character of `.replace(/[^a-z0-9]/gi, "_")`. -/
def sanitizeChar (c : Char) : Char := if isAsciiAlnum c then c else '_'

/-- `FileUtils.generateFilename`, as a function of `document.title`.
`toLowerCase` is applied after sanitization, when only ASCII characters
remain, so `Char.toLower` models it exactly. -/
def generateFilename (title : String) : String :=
  String.mk (((replaceMarkerJS title.data).map sanitizeChar).map Char.toLower) ++ ".md"

/-- The Namer exactly as the specification words it (the reference definition
of `deriveFilename`): strip a trailing " : r/<subreddit>" suffix if present,
replace every character that is not an ASCII letter or digit with "_",
lowercase, append ".md". -/
def deriveFilenameSpec (title : String) : String :=
  String.mk (((replaceMarkerSpec title.data).map sanitizeChar).map Char.toLower) ++ ".md"

/- ===== Extractor: comments (CommentExtractor, source lines 246-294) ===== -/

/-- A shreddit-comment element as the script reads it: the three attributes
consulted by `getAttribute` and, when the query for
`[id$="-comment-rtjson-content"] > div` finds a node, the `innerText` of that
node. -/
structure CommentElement where
  depthAttr : Option String
  authorAttr : Option String
  scoreAttr : Option String
  bodyText : Option String
deriving DecidableEq

/-- The record produced for one comment: author string, the raw score
attribute (possibly null), the trimmed body text, and the parsed depth.
The depth is an `Int` because `parseInt` can return a negative number. -/
structure CommentData where
  author : String
  score : Option String
  content : String
  depth : Int
deriving DecidableEq

/-- Value of a digit run for `parseInt`. -/
def digitsToNat (ds : List Char) : Nat :=
  ds.foldl (fun acc c => acc * 10 + (c.toNat - '0'.toNat)) 0

/-- JavaScript `parseInt(s, 10)`: skip leading whitespace, read an optional
sign, then the longest prefix of decimal digits; `none` models NaN (no
digits). -/
def jsParseInt (s : String) : Option Int :=
  let cs := s.data.dropWhile Char.isWhitespace
  let signed : Int × List Char :=
    match cs with
    | '+' :: t => (1, t)
    | '-' :: t => (-1, t)
    | _ => (1, cs)
  let ds := signed.2.takeWhile (fun c => '0' ≤ c && c ≤ '9')
  if ds.isEmpty then none else some (signed.1 * (digitsToNat ds : Int))

/-- `parseInt(commentElement.getAttribute("depth"), 10) || 0` from the source.
A missing attribute is JavaScript null, which `parseInt` stringifies to
"null", giving NaN, hence 0; NaN `|| 0` is 0; the number 0 `|| 0` is 0. -/
def jsDepth : Option String → Int
  | none => 0
  | some s =>
    match jsParseInt s with
    | none => 0
    | some n => if n = 0 then 0 else n

/-- `CommentExtractor.extractCommentData`: read depth, author, score, find the
body node; return null unless the author attribute is truthy and the body
node exists; otherwise build the record with the trimmed body text. -/
def extractCommentData (e : CommentElement) : Option CommentData :=
  let depth := jsDepth e.depthAttr
  match e.authorAttr, e.bodyText with
  | some a, some b => if a = "" then none else some ⟨a, e.scoreAttr, jsTrim b, depth⟩
  | _, _ => none

/-- `CommentExtractor.extractAllComments`: when the shreddit-comment-tree
element is absent the function returns an empty array; otherwise it collects
the non-null results of `extractCommentData` over the comment elements in
document order. -/
def extractAllComments : Option (List CommentElement) → List CommentData
  | none => []
  | some es => es.filterMap extractCommentData

/- ===== Renderer: MarkdownUtils (source lines 170-197) ===== -/

/-- n-fold concatenation of a string with itself, the result of
`s.repeat(n)` for a non-negative count. -/
def sRepeat (s : String) : Nat → String
  | 0 => ""
  | n + 1 => s ++ sRepeat s n

/-- JavaScript `s.repeat(n)` for an integer count: throws a RangeError
(modelled as `none`) when the count is negative. -/
def jsRepeat (s : String) (n : Int) : Option String :=
  if n < 0 then none else some (sRepeat s n.toNat)

/-- The indentation computation of `MarkdownUtils.formatComment`:
`"  ".repeat(depth * 2)`. -/
def commentIndent (depth : Int) : Option String := jsRepeat "  " (depth * 2)

/-- `content.replace(/\n/g, repl)`: every newline is replaced; the
replacement text is not rescanned. -/
def replNL (repl : List Char) : List Char → List Char
  | [] => []
  | c :: cs => if c = '\n' then repl ++ replNL repl cs else c :: replNL repl cs

/-- String wrapper for `replNL`. -/
def jsReplaceNewlines (s repl : String) : String := String.mk (replNL repl.data s.data)

/-- The score as it appears inside the template literal
`(*SCORE points*)`: a missing attribute is JavaScript null and is coerced
to the string "null"; a present attribute value appears verbatim. -/
def scoreText : Option String → String
  | none => "null"
  | some s => s

/-- `MarkdownUtils.formatComment`: indentation, the bullet line, then the
blockquote line with every embedded newline of the body re-indented.
`none` models the RangeError thrown by `repeat` on a negative count. -/
def formatComment (c : CommentData) : Option String :=
  match commentIndent c.depth with
  | none => none
  | some indent =>
    some ((indent ++ "- **u/" ++ c.author ++ "** (*" ++ scoreText c.score ++ " points*):\n")
      ++ (indent ++ "  > " ++ jsReplaceNewlines c.content ("\n" ++ indent ++ "  > ") ++ "\n\n"))

/- ===== Extractor: post (PostExtractor, source lines 206-241) ===== -/

/-- A shreddit-post element: the four typed element properties, the four
string attributes read as fallbacks, and the body node text when present. -/
structure PostElement where
  postTitle : JSVal
  authorProp : JSVal
  subredditName : JSVal
  scoreProp : JSVal
  postTitleAttr : Option String
  authorAttr : Option String
  subredditNameAttr : Option String
  scoreAttr : Option String
  bodyText : Option String
deriving DecidableEq

/-- The post record: each metadata field keeps the JavaScript value chosen by
the `||` fallback; the body text defaults to the empty string. -/
structure PostData where
  title : JSVal
  author : JSVal
  subreddit : JSVal
  score : JSVal
  content : String
deriving DecidableEq

/-- `PostExtractor.extractPostData` on a non-null element: each metadata field
is `property || getAttribute(...)`; the body is the trimmed `innerText` of
the rtjson content node, or "" when that node is missing. -/
def extractPostData (e : PostElement) : PostData :=
  { title := jsOr e.postTitle (attrVal e.postTitleAttr)
    author := jsOr e.authorProp (attrVal e.authorAttr)
    subreddit := jsOr e.subredditName (attrVal e.subredditNameAttr)
    score := jsOr e.scoreProp (attrVal e.scoreAttr)
    content := match e.bodyText with | none => "" | some t => jsTrim t }

/-- `MarkdownUtils.formatPostHeader`. -/
def formatPostHeader (p : PostData) : String :=
  "# " ++ jsToStr p.title ++ "\n\n"
    ++ "**Subreddit:** r/" ++ jsToStr p.subreddit ++ "\n"
    ++ "**Author:** u/" ++ jsToStr p.author ++ "\n"
    ++ "**Score:** " ++ jsToStr p.score ++ "\n\n"

/-- The markdown assembly of `scrapeThread` (source lines 347-361): header,
body paragraph when the body is truthy (nonempty), the separator and the
Comments heading, then every formatted comment in sequence order. A
RangeError from `formatComment` propagates and aborts the whole run. -/
def renderThread (p : PostData) (cs : List CommentData) : Option String :=
  match cs.mapM formatComment with
  | none => none
  | some parts =>
    some (formatPostHeader p
      ++ (if p.content = "" then "" else p.content ++ "\n\n")
      ++ "---\n\n## Comments\n\n"
      ++ String.join parts)

/- ===== Pipeline: scrapeThread (source lines 329-372) ===== -/

/-- The host-owned page state read during one run: the shreddit-post element
if present, the shreddit-comment-tree with its comment elements if present,
and `document.title`. -/
structure Host where
  post : Option PostElement
  commentTree : Option (List CommentElement)
  docTitle : String
deriving DecidableEq

/-- `scrapeThread` as a function of the host state, returning the pair
(markdown content, filename) handed to the download step, or `none` when the
run stops without a download (post element missing, or an exception). The
comment tree being absent does NOT stop the run in the source: the extractor
returns an empty array and the download still happens. -/
def scrapeThread (h : Host) : Option (String × String) :=
  match h.post with
  | none => none
  | some pe =>
    match renderThread (extractPostData pe) (extractAllComments h.commentTree) with
    | none => none
    | some md => some (md, generateFilename h.docTitle)

/-- The click handler installed by `addScrapeButton` is `scrapeThread` itself
(source line 321: `createStyledButton("Scrape to Markdown", ..., scrapeThread)`).
The script keeps no run-in-progress flag, so the action taken on a trigger
cannot depend on whether a run is already active; `handleTrigger` makes this
explicit by receiving the run-active status that the guard required by the
specification would consult, and ignoring it exactly as the code does. -/
def handleTrigger (_runActive : Bool) (h : Host) : Option (String × String) :=
  scrapeThread h

/- ===== Concrete inputs used by the claim theorems ===== -/

/-- A post element with every metadata property set and no body node. -/
def pe1 : PostElement :=
  ⟨vStr "T1", vStr "bob", vStr "aaa", vStr "7", none, none, none, none, none⟩

/-- A host whose comment container is absent. -/
def h1 : Host := ⟨some pe1, none, "My T"⟩

/-- A comment element with no score attribute. -/
def e2 : CommentElement := ⟨none, some "bob", none, some "Hi"⟩

/-- The record extracted from `e2`. -/
def r2 : CommentData := ⟨"bob", none, "Hi", 0⟩

/-- A post element for the re-entrancy host. -/
def pe3 : PostElement :=
  ⟨vStr "T3", vStr "ann", vStr "bbb", vStr "3", none, none, none, none, none⟩

/-- A well-formed comment element. -/
def e3c : CommentElement := ⟨some "0", some "cc", some "1", some "hi"⟩

/-- A fully populated host used to exercise a triggered run. -/
def h3 : Host := ⟨some pe3, some [e3c], "T3"⟩

/-- The post record of the rendering example of the specification. -/
def helloPost : PostData := ⟨vStr "Hello World", vStr "alice", vStr "test", vStr "10", ""⟩

/-- A well-formed comment element (kept by extraction). -/
def e7good : CommentElement := ⟨some "0", some "carol", some "2", some "ok"⟩

/-- A comment element whose body content node is missing (dropped). -/
def e7bad : CommentElement := ⟨some "1", some "dave", some "9", none⟩

/-- A comment element whose depth attribute parses to a negative integer. -/
def e9 : CommentElement := ⟨some "-1", some "al", some "5", some "x"⟩

/-- The record extracted from `e9`. -/
def r9 : CommentData := ⟨"al", some "5", "x", -1⟩

/-- A post element whose typed score property is the falsy number 0 and whose
typed title property is the falsy empty string, both with attribute values
present. -/
def pw : PostElement :=
  ⟨vStr "", vStr "bob", vStr "aa", vNum 0, some "Real Title", none, none, some "42", none⟩

/-- A host used by the determinism witness. -/
def h8 : Host := ⟨some pe1, some [e3c], "T8"⟩

/- ===== Helper lemmas ===== -/

theorem dropWhile_eq_nil_of_all {p : Char → Bool} {l : List Char} (h : ∀ x ∈ l, p x) :
    l.dropWhile p = [] :=
  List.dropWhile_eq_nil_iff.mpr h

theorem sRepeat_length (s : String) (n : Nat) : (sRepeat s n).length = n * s.length := by
  induction n with
  | zero => simp [sRepeat]
  | succ n ih =>
    rw [sRepeat, String.length_append, ih, Nat.succ_mul]
    omega

theorem replaceMarker_eq_spec (cs : List Char) (h : ∀ c ∈ cs, isLineTerm c = false) :
    replaceMarkerJS cs = replaceMarkerSpec cs := by
  induction cs with
  | nil => rfl
  | cons c cs ih =>
    have hTail : ∀ x ∈ cs, isLineTerm x = false := fun x hx => h x (List.mem_cons_of_mem c hx)
    by_cases hp : markerChars.isPrefixOf (c :: cs)
    · rw [replaceMarkerJS, replaceMarkerSpec, if_pos hp, if_pos hp]
      apply dropWhile_eq_nil_of_all
      intro x hx
      have hfalse := h x (List.mem_of_mem_drop hx)
      simp [hfalse]
    · rw [replaceMarkerJS, replaceMarkerSpec, if_neg hp, if_neg hp, ih hTail]

theorem extract_some_shape (e : CommentElement) (r : CommentData)
    (h : extractCommentData e = some r) :
    r.depth = jsDepth e.depthAttr ∧ r.score = e.scoreAttr := by
  unfold extractCommentData at h
  cases ha : e.authorAttr with
  | none => rw [ha] at h; cases e.bodyText <;> simp at h
  | some a =>
    cases hb : e.bodyText with
    | none => rw [ha, hb] at h; simp at h
    | some b =>
      rw [ha, hb] at h
      by_cases hae : a = ""
      · simp [hae] at h
      · simp only [if_neg hae, Option.some.injEq] at h
        rw [← h]
        exact ⟨rfl, rfl⟩

/- ===== Claim theorems ===== -/

/-- C1 (code behaviour at the failing input): when the comment container is
absent, `extractAllComments` returns the empty sequence rather than a
hard-stop signal, and `scrapeThread` still completes and hands a document to
the download step, contradicting the claimed abort-with-no-output. -/
theorem c1_code_behavior :
    extractAllComments (none : Option (List CommentElement)) = [] ∧
    scrapeThread h1 =
      some ("# T1\n\n**Subreddit:** r/aaa\n**Author:** u/bob\n**Score:** 7\n\n---\n\n## Comments\n\n",
        "my_t.md") :=
  ⟨rfl, by decide⟩

/-- C2 (counterexample): a comment element with no score attribute is
extracted with a null score, not a score of 0, and the rendered record shows
the non-numeric placeholder "null". -/
theorem c2_counterexample :
    extractCommentData e2 = some r2 ∧
    r2.score ≠ some "0" ∧
    formatComment r2 = some "- **u/bob** (*null points*):\n  > Hi\n\n" ∧
    formatComment r2 ≠ some "- **u/bob** (*0 points*):\n  > Hi\n\n" :=
  ⟨by decide, by decide, by decide, by decide⟩

/-- C2 (amended): the extracted score is the raw score attribute with no
parse-with-default-0 step; an absent or non-numeric score never makes the
extraction of an otherwise well-formed comment fail, but an absent score is
coerced to the string "null" inside the rendered record. -/
theorem c2_score_passthrough :
    (∀ (e : CommentElement) (r : CommentData), extractCommentData e = some r → r.score = e.scoreAttr) ∧
    (∀ e : CommentElement, (∃ a, e.authorAttr = some a ∧ a ≠ "") → (∃ b, e.bodyText = some b) →
      (extractCommentData e).isSome = true) ∧
    scoreText none = "null" ∧
    formatComment ⟨"bob", none, "Hi", 0⟩ = some "- **u/bob** (*null points*):\n  > Hi\n\n" := by
  refine ⟨fun e r h => (extract_some_shape e r h).2, ?_, rfl, by decide⟩
  intro e h1 h2
  obtain ⟨a, ha, hae⟩ := h1
  obtain ⟨b, hb⟩ := h2
  unfold extractCommentData
  rw [ha, hb]
  simp [hae]

/-- C2 witness: the amended statement applied to the concrete element `e2`. -/
theorem c2_witness :
    r2.score = e2.scoreAttr ∧ (extractCommentData e2).isSome = true :=
  ⟨c2_score_passthrough.1 e2 r2 (by decide),
   c2_score_passthrough.2.1 e2 ⟨"bob", rfl, by decide⟩ ⟨"Hi", rfl⟩⟩

/-- C3 (code behaviour at the failing input): the click handler has no
run-in-progress guard, so its action is identical whether or not a run is
already active, and a trigger arriving while a run is active still starts a
full run (produces a download) instead of being prevented. -/
theorem c3_code_behavior :
    handleTrigger true h3 = handleTrigger false h3 ∧ handleTrigger true h3 ≠ none :=
  ⟨rfl, by decide⟩

/-- C4: for every comment record at non-negative depth (the only depths the
data model gives a CommentRecord), the indentation computed by the comment
renderer is depth * 2 copies of the two-character unit "  ", its length is
exactly depth * 4 characters, and the rendered comment starts with exactly
this prefix. -/
theorem c4_indent_length (c : CommentData) (h : 0 ≤ c.depth) :
    commentIndent c.depth = some (sRepeat "  " (c.depth.toNat * 2)) ∧
    (sRepeat "  " (c.depth.toNat * 2)).length = c.depth.toNat * 4 ∧
    ∃ rest, formatComment c = some (sRepeat "  " (c.depth.toNat * 2) ++ rest) := by
  have hn : (c.depth * 2).toNat = c.depth.toNat * 2 := by omega
  have h1 : commentIndent c.depth = some (sRepeat "  " (c.depth.toNat * 2)) := by
    unfold commentIndent jsRepeat
    rw [if_neg (by omega), hn]
  refine ⟨h1, ?_, ?_⟩
  · rw [sRepeat_length]
    have h2 : ("  " : String).length = 2 := rfl
    rw [h2]
    omega
  · unfold formatComment
    rw [h1]
    refine ⟨"- **u/" ++ (c.author ++ ("** (*" ++ (scoreText c.score ++ (" points*):\n" ++
      (sRepeat "  " (c.depth.toNat * 2) ++ ("  > " ++
        (jsReplaceNewlines c.content ("\n" ++ (sRepeat "  " (c.depth.toNat * 2) ++ "  > ")) ++
          "\n\n"))))))), ?_⟩
    simp [String.append_assoc]

/-- C4 witness: the indentation statement at a concrete record of depth 3. -/
theorem c4_witness :
    commentIndent (⟨"a", some "1", "x", 3⟩ : CommentData).depth =
      some (sRepeat "  " ((⟨"a", some "1", "x", 3⟩ : CommentData).depth.toNat * 2)) ∧
    (sRepeat "  " ((⟨"a", some "1", "x", 3⟩ : CommentData).depth.toNat * 2)).length =
      (⟨"a", some "1", "x", 3⟩ : CommentData).depth.toNat * 4 ∧
    ∃ rest, formatComment ⟨"a", some "1", "x", 3⟩ =
      some (sRepeat "  " ((⟨"a", some "1", "x", 3⟩ : CommentData).depth.toNat * 2) ++ rest) :=
  c4_indent_length ⟨"a", some "1", "x", 3⟩ (by decide)

/-- C5: rendering the example post record with an empty comment sequence
yields exactly the claimed string, and in general the body paragraph with
its trailing blank line is emitted precisely when the body is nonempty. -/
theorem c5_render_exact :
    renderThread helloPost [] =
      some "# Hello World\n\n**Subreddit:** r/test\n**Author:** u/alice\n**Score:** 10\n\n---\n\n## Comments\n\n" ∧
    (∀ (p : PostData) (cs : List CommentData), p.content = "" →
      renderThread p cs = (cs.mapM formatComment).map
        (fun parts => formatPostHeader p ++ "---\n\n## Comments\n\n" ++ String.join parts)) ∧
    (∀ (p : PostData) (cs : List CommentData), p.content ≠ "" →
      renderThread p cs = (cs.mapM formatComment).map
        (fun parts => formatPostHeader p ++ (p.content ++ "\n\n") ++ "---\n\n## Comments\n\n"
          ++ String.join parts)) := by
  refine ⟨by decide, ?_, ?_⟩
  · intro p cs h
    unfold renderThread
    cases hm : cs.mapM formatComment with
    | none => simp
    | some parts => simp [h, String.append_empty]
  · intro p cs h
    unfold renderThread
    cases hm : cs.mapM formatComment with
    | none => simp
    | some parts => simp [h]

/-- C5 witness: the body-empty equation applied to the example record. -/
theorem c5_witness :
    renderThread helloPost [] =
      (([] : List CommentData).mapM formatComment).map
        (fun parts => formatPostHeader helloPost ++ "---\n\n## Comments\n\n" ++ String.join parts) :=
  c5_render_exact.2.1 helloPost [] rfl

/-- C6 (counterexample): on a title with a line terminator after the marker,
the code keeps the text of the following line while the reference definition
strips the whole trailing suffix, so the two functions differ. -/
theorem c6_counterexample :
    generateFilename "A : r/x\nB" = "a_b.md" ∧
    deriveFilenameSpec "A : r/x\nB" = "a.md" ∧
    generateFilename "A : r/x\nB" ≠ deriveFilenameSpec "A : r/x\nB" :=
  ⟨by decide, by decide, by decide⟩

/-- C6 (amended): `generateFilename` is total, satisfies both claimed
examples, and agrees with the reference definition `deriveFilenameSpec` on
every title in which no line terminator occurs (in particular on every
single-line page title); in general its strip step removes the text from the
first " : r/" only to the end of that line. -/
theorem c6_filename_total :
    generateFilename "My Thread : r/test" = "my_thread.md" ∧
    generateFilename "" = ".md" ∧
    ∀ s : String, (∀ c ∈ s.data, isLineTerm c = false) →
      generateFilename s = deriveFilenameSpec s := by
  refine ⟨by decide, by decide, ?_⟩
  intro s h
  unfold generateFilename deriveFilenameSpec
  rw [replaceMarker_eq_spec s.data h]

/-- C6 witness: the agreement applied to the claimed example title. -/
theorem c6_witness :
    generateFilename "My Thread : r/test" = deriveFilenameSpec "My Thread : r/test" :=
  c6_filename_total.2.2 "My Thread : r/test" (by decide)

/-- C7: a comment element missing its author attribute or its body content
node is never included in the extracted sequence, removing such an element
from the container changes nothing else in the extracted sequence, and the
rendered document is identical with or without the malformed element. -/
theorem c7_malformed_dropped :
    (∀ e : CommentElement, e.authorAttr = none ∨ e.bodyText = none →
      extractCommentData e = none) ∧
    (∀ (xs ys : List CommentElement) (e : CommentElement), extractCommentData e = none →
      extractAllComments (some (xs ++ e :: ys)) = extractAllComments (some (xs ++ ys))) ∧
    (∀ (p : PostData) (xs ys : List CommentElement) (e : CommentElement),
      extractCommentData e = none →
      renderThread p (extractAllComments (some (xs ++ e :: ys))) =
        renderThread p (extractAllComments (some (xs ++ ys)))) := by
  have hdrop : ∀ (xs ys : List CommentElement) (e : CommentElement),
      extractCommentData e = none →
      extractAllComments (some (xs ++ e :: ys)) = extractAllComments (some (xs ++ ys)) := by
    intro xs ys e h
    show (xs ++ e :: ys).filterMap extractCommentData = (xs ++ ys).filterMap extractCommentData
    rw [List.filterMap_append, List.filterMap_append]
    congr 1
    simp [List.filterMap_cons, h]
  refine ⟨?_, hdrop, ?_⟩
  · intro e h
    unfold extractCommentData
    rcases h with h | h
    · rw [h]
    · rw [h]
      cases e.authorAttr <;> rfl
  · intro p xs ys e h
    rw [hdrop xs ys e h]

/-- C7 witness: dropping the concrete malformed element `e7bad` leaves the
sequence extracted from its well-formed sibling unchanged. -/
theorem c7_witness :
    extractCommentData e7bad = none ∧
    extractAllComments (some ([e7good] ++ e7bad :: [])) =
      extractAllComments (some ([e7good] ++ [])) :=
  ⟨c7_malformed_dropped.1 e7bad (Or.inr rfl),
   c7_malformed_dropped.2.1 [e7good] [] e7bad (by decide)⟩

/-- C8: the renderer and the whole pipeline are deterministic functions of
their inputs: identical records give byte-identical documents, and an
unchanged host tree gives a byte-identical run result. -/
theorem c8_deterministic :
    (∀ (p q : PostData) (cs ds : List CommentData), p = q → cs = ds →
      renderThread p cs = renderThread q ds) ∧
    (∀ g h : Host, g = h → scrapeThread g = scrapeThread h) :=
  ⟨fun _ _ _ _ hp hc => hp ▸ hc ▸ rfl, fun _ _ hg => hg ▸ rfl⟩

/-- C8 witness: determinism applied at concrete inputs. -/
theorem c8_witness :
    renderThread helloPost [] = renderThread helloPost [] ∧
    scrapeThread h8 = scrapeThread h8 :=
  ⟨c8_deterministic.1 helloPost helloPost [] [] rfl rfl, c8_deterministic.2 h8 h8 rfl⟩

/-- C9 (counterexample): a depth attribute that parses to a negative integer
is carried into the record unchanged, so the extracted depth is negative and
the renderer fails on it (the negative repeat count throws). -/
theorem c9_counterexample :
    extractCommentData e9 = some r9 ∧ r9.depth < 0 ∧ formatComment r9 = none :=
  ⟨by decide, by decide, by decide⟩

/-- C9 (amended): the extracted depth is an integer that defaults to 0 when
the depth attribute is absent or non-numeric; whenever the attribute does not
parse to a negative integer the extracted depth is non-negative, and at every
non-negative depth the indentation computation of the renderer is
well-defined (no RangeError). -/
theorem c9_depth_policy :
    (∀ (e : CommentElement) (r : CommentData), extractCommentData e = some r →
      (e.depthAttr = none ∨ (∃ s, e.depthAttr = some s ∧ jsParseInt s = none)) → r.depth = 0) ∧
    (∀ (e : CommentElement) (r : CommentData), extractCommentData e = some r →
      (∀ s n, e.depthAttr = some s → jsParseInt s = some n → 0 ≤ n) → 0 ≤ r.depth) ∧
    (∀ r : CommentData, 0 ≤ r.depth → ∃ md, formatComment r = some md) := by
  refine ⟨?_, ?_, ?_⟩
  · intro e r her hattr
    have hd := (extract_some_shape e r her).1
    rcases hattr with h | ⟨s, hs, hp⟩
    · rw [hd, h]; rfl
    · rw [hd, hs]; simp [jsDepth, hp]
  · intro e r her hpos
    have hd := (extract_some_shape e r her).1
    rw [hd]
    cases ha : e.depthAttr with
    | none => simp [jsDepth]
    | some s =>
      cases hp : jsParseInt s with
      | none => simp [jsDepth, hp]
      | some n =>
        have hn := hpos s n ha hp
        simp only [jsDepth, hp]
        split <;> omega
  · intro r h
    unfold formatComment commentIndent jsRepeat
    rw [if_neg (by omega)]
    exact ⟨_, rfl⟩

/-- C9 witness: the default and the well-definedness applied to concrete
records. -/
theorem c9_witness :
    (⟨"eve", some "7", "y", 0⟩ : CommentData).depth = 0 ∧
    ∃ md, formatComment (⟨"eve", some "7", "y", 2⟩ : CommentData) = some md :=
  ⟨c9_depth_policy.1 ⟨some "abc", some "eve", some "7", some "y"⟩ ⟨"eve", some "7", "y", 0⟩
      (by decide) (Or.inr ⟨"abc", rfl, by decide⟩),
   c9_depth_policy.2.2 ⟨"eve", some "7", "y", 2⟩ (by decide)⟩

/-- C10: in post extraction the two-step fallback selects the string
attribute whenever the typed property is falsy, not only when it is absent:
a typed score equal to the number 0, or a typed title equal to the empty
string, makes the extractor use the attribute value. -/
theorem c10_falsy_fallback :
    (∀ e : PostElement, truthy e.scoreProp = false →
      (extractPostData e).score = attrVal e.scoreAttr) ∧
    (∀ e : PostElement, e.scoreProp = vNum 0 →
      (extractPostData e).score = attrVal e.scoreAttr) ∧
    (∀ e : PostElement, e.postTitle = vStr "" →
      (extractPostData e).title = attrVal e.postTitleAttr) := by
  refine ⟨?_, ?_, ?_⟩
  · intro e h
    simp [extractPostData, jsOr, h]
  · intro e h
    have ht : truthy e.scoreProp = false := by rw [h]; decide
    simp [extractPostData, jsOr, ht]
  · intro e h
    have ht : truthy e.postTitle = false := by rw [h]; decide
    simp [extractPostData, jsOr, ht]

/-- C10 witness: the fallback applied to a concrete element whose typed score
is 0 and whose typed title is the empty string. -/
theorem c10_witness :
    (extractPostData pw).score = attrVal (some "42") ∧
    (extractPostData pw).title = attrVal (some "Real Title") :=
  ⟨c10_falsy_fallback.2.1 pw rfl, c10_falsy_fallback.2.2 pw rfl⟩
